import Mathlib

/-!
Verification development for the gRPC greeter client (src/grpc-go/client.py).

The client itself is fifteen lines of Python: it opens an insecure channel to
the fixed target "localhost:50051" inside a `with` block, binds a GreeterStub
to the channel, performs one unary SayHello call with request name "World",
prints the greeting, and lets the `with` block close the channel on every exit
path.  The channel and invoker implementation live in the gRPC runtime, which
is not part of this repository; those operations are modelled from the
specification (each such definition carries a doc comment saying so).  The
environment — server plus transport — is a parameter of the model: a function
from the request to an optional call outcome, where `none` means that no
response frame and no transport failure ever arrives.
-/

namespace GreeterClient

/-- An Endpoint: host and port of the remote service instance. -/
structure Endpoint where
  host : String
  port : Nat
deriving DecidableEq, Repr

/-- Modelled from the spec: structural well-formedness of an Endpoint —
non-empty host and a port in the valid range. -/
def endpointWellFormed (e : Endpoint) : Bool :=
  e.host != "" && decide (1 ≤ e.port) && decide (e.port ≤ 65535)

/-- Modelled from the spec: the error taxonomy of the error-handling design
(ConfigurationError, ConnectivityError, DeadlineExceededError, RemoteError,
SerializationError, ChannelClosedError). -/
inductive RpcError where
  | configurationError
  | connectivityError
  | deadlineExceededError
  | remoteError (code : Nat) (msg : String)
  | serializationError
  | channelClosedError
deriving DecidableEq, Repr

/-- The failure reason the entry point writes to the error stream when an
error goes unhandled (Python prints a traceback naming the exception). -/
def RpcError.describe : RpcError → String
  | .configurationError => "ConfigurationError"
  | .connectivityError => "ConnectivityError"
  | .deadlineExceededError => "DeadlineExceededError"
  | .remoteError c m => "RemoteError " ++ toString c ++ ": " ++ m
  | .serializationError => "SerializationError"
  | .channelClosedError => "ChannelClosedError"

/-- A Channel is either open (usable) or closed (terminal). -/
inductive ChannelState where
  | opened
  | closed
deriving DecidableEq, Repr

/-- A Channel: a handle wrapping one underlying connection to an Endpoint. -/
structure Channel where
  endpoint : Endpoint
  state : ChannelState
deriving DecidableEq, Repr

/-- Release of the underlying connection, observable as an event. -/
inductive ResEvent where
  | release
deriving DecidableEq, Repr

/-- Modelled from the spec: close() releases the underlying connection and is
idempotent.  The event list records whether the underlying connection was
actually released by this call. -/
def Channel.closeTr (c : Channel) : Channel × List ResEvent :=
  match c.state with
  | .opened => (⟨c.endpoint, .closed⟩, [.release])
  | .closed => (c, [])

/-- The channel after close(), discarding the release event. -/
def Channel.close (c : Channel) : Channel :=
  (Channel.closeTr c).1

/-- The request record produced by the schema compiler (greeting_pb2
HelloRequest, field name).  Modelled from the spec: the generated module is
not in the repository source. -/
structure HelloRequest where
  name : String
deriving DecidableEq, Repr

/-- The response record (field message), likewise from the generated module. -/
structure HelloReply where
  message : String
deriving DecidableEq, Repr

/-- Network activity observable during a call: one request transmission and
one wait for the response frame. -/
inductive NetEvent where
  | send (req : HelloRequest)
  | waitResponse
deriving DecidableEq, Repr

/-- Modelled from the spec: Channel acquisition.  Connection establishment for
an insecure channel is lazy — acquisition performs no network activity (the
event list is empty on every path) — and a malformed Endpoint fails fast with
a ConfigurationError. -/
def openChannel (e : Endpoint) : Except RpcError Channel × List NetEvent :=
  if endpointWellFormed e then (.ok ⟨e, .opened⟩, []) else (.error .configurationError, [])

/-- Splits a character list at the first occurrence of the separator; none if
the separator does not occur. -/
def splitOnce (sep : Char) : List Char → Option (List Char × List Char)
  | [] => none
  | c :: cs =>
    if c = sep then some ([], cs)
    else (splitOnce sep cs).map fun p => (c :: p.1, p.2)

/-- Reads a non-empty list of decimal digits as a number; none otherwise. -/
def digitsToNat (l : List Char) : Option Nat :=
  match l with
  | [] => none
  | _ =>
    l.foldl
      (fun acc c =>
        match acc with
        | some a => if c.isDigit then some (10 * a + (c.toNat - 48)) else none
        | none => none)
      (some 0)

/-- Modelled from the spec: parsing of the target string into host and port
(the text before the first colon and the decimal number after it). -/
def parseTarget (s : String) : Option Endpoint :=
  match splitOnce ':' s.toList with
  | none => none
  | some (h, p) => (digitsToNat p).map fun n => ⟨String.mk h, n⟩

/-- Modelled from the spec: grpc.insecure_channel, as called on line 7 of
client.py — parse the target string, then acquire the Channel. -/
def insecure_channel (target : String) : Except RpcError Channel × List NetEvent :=
  match parseTarget target with
  | none => (.error .configurationError, [])
  | some e => openChannel e

/-- Outcome of one unary call once it completes: a Response or a failure. -/
inductive CallResult where
  | ok (r : HelloReply)
  | err (e : RpcError)
deriving DecidableEq, Repr

/-- The environment of the program: server plus transport, as a function from
the request to the eventual outcome of the round trip.  The value none means
that no response frame and no transport failure ever arrives. -/
def ServerBehavior : Type :=
  HelloRequest → Option CallResult

/-- The Invoker: a stateless binding of a Channel to the SayHello signature
(greeting_pb2_grpc GreeterStub, from the generated module). -/
structure GreeterStub where
  channel : Channel
deriving DecidableEq, Repr

/-- Modelled from the spec: the unary call.  On a closed channel the call
fails immediately with ChannelClosedError and performs no network activity.
On an open channel it transmits the request once and waits; if the
environment delivers an outcome, that outcome is returned; otherwise a
configured timeout yields DeadlineExceededError, and with no timeout the call
blocks indefinitely (result none).  The event list is the network activity of
the call. -/
def GreeterStub.sayHello (net : ServerBehavior) (stub : GreeterStub)
    (req : HelloRequest) (timeout : Option Nat) :
    Option CallResult × List NetEvent :=
  match stub.channel.state with
  | .closed => (some (.err .channelClosedError), [])
  | .opened =>
    match net req, timeout with
    | some r, _ => (some r, [.send req, .waitResponse])
    | none, some _ => (some (.err .deadlineExceededError), [.send req, .waitResponse])
    | none, none => (none, [.send req, .waitResponse])

/-- The target string hard-coded on line 7 of client.py. -/
def programTarget : String := "localhost:50051"

/-- The request constructed on line 11 of client.py. -/
def programRequest : HelloRequest := ⟨"World"⟩

/-- Observable result of one terminating execution of run(): the lines printed
to standard output, the error propagating out of run (if any), the final state
of the channel created by the with block (none if no channel was created), and
the network activity of the execution. -/
structure RunResult where
  stdout : List String
  raised : Option RpcError
  channelAfter : Option Channel
  trace : List NetEvent
deriving DecidableEq, Repr

/-- Shallow embedding of run() (client.py lines 5 to 12): a with-scoped
insecure channel to programTarget, a GreeterStub bound to it, one SayHello
call with no timeout argument, and a print of "Greeting: " followed by the
response message.  The with block closes the channel on every exit path,
including the path where the call raises.  The overall result none means the
call blocked forever, so run never exits its scope. -/
def run (net : ServerBehavior) : Option RunResult :=
  match insecure_channel programTarget with
  | (Except.error e, tr) => some ⟨[], some e, none, tr⟩
  | (Except.ok channel, tr0) =>
    let stub : GreeterStub := ⟨channel⟩
    match GreeterStub.sayHello net stub programRequest none with
    | (none, _) => none
    | (some (CallResult.err e), tr) =>
        some ⟨[], some e, some channel.close, tr0 ++ tr⟩
    | (some (CallResult.ok response), tr) =>
        some ⟨["Greeting: " ++ response.message], none, some channel.close, tr0 ++ tr⟩

/-- Observable result of one terminating execution of the process. -/
structure MainResult where
  exitCode : Nat
  stdout : List String
  stderr : List String
deriving DecidableEq, Repr

/-- Shallow embedding of the module entry guard (client.py lines 14 to 15):
call run(); an error left unhandled by run terminates the process with exit
code 1 and the failure reason on the error stream, while normal completion
exits with code 0 and nothing on the error stream. -/
def mainEntry (net : ServerBehavior) : Option MainResult :=
  match run net with
  | none => none
  | some r =>
    match r.raised with
    | none => some ⟨0, r.stdout, []⟩
    | some e => some ⟨1, r.stdout, [RpcError.describe e]⟩

/-- The live compatible server of the example scenario: SayHello returns
message = "Hello, " followed by the request name. -/
def helloServer : ServerBehavior :=
  fun req => some (CallResult.ok ⟨"Hello, " ++ req.name⟩)

/-- An endpoint whose port has no listening server: the round trip resolves to
a ConnectivityError. -/
def connRefusedServer : ServerBehavior :=
  fun _ => some (CallResult.err RpcError.connectivityError)

/-- An environment in which no response frame and no transport failure ever
arrives. -/
def silentServer : ServerBehavior :=
  fun _ => none

theorem insecure_channel_programTarget :
    insecure_channel programTarget =
      (Except.ok ⟨⟨"localhost", 50051⟩, ChannelState.opened⟩, []) := by
  rfl

/-- Behaviour of run when the environment delivers a successful outcome. -/
theorem run_eq_ok (net : ServerBehavior) (resp : HelloReply)
    (h : net programRequest = some (CallResult.ok resp)) :
    run net = some ⟨["Greeting: " ++ resp.message], none,
      some ⟨⟨"localhost", 50051⟩, ChannelState.closed⟩,
      [NetEvent.send ⟨"World"⟩, NetEvent.waitResponse]⟩ := by
  rw [run, insecure_channel_programTarget]
  simp only [programRequest] at h
  simp [GreeterStub.sayHello, h, Channel.close, Channel.closeTr, programRequest]

/-- Behaviour of run when the environment delivers a failure outcome. -/
theorem run_eq_err (net : ServerBehavior) (e : RpcError)
    (h : net programRequest = some (CallResult.err e)) :
    run net = some ⟨[], some e,
      some ⟨⟨"localhost", 50051⟩, ChannelState.closed⟩,
      [NetEvent.send ⟨"World"⟩, NetEvent.waitResponse]⟩ := by
  rw [run, insecure_channel_programTarget]
  simp only [programRequest] at h
  simp [GreeterStub.sayHello, h, Channel.close, Channel.closeTr, programRequest]

/-- Behaviour of run when the environment never delivers an outcome. -/
theorem run_eq_none (net : ServerBehavior)
    (h : net programRequest = none) :
    run net = none := by
  rw [run, insecure_channel_programTarget]
  simp [GreeterStub.sayHello, h]

/-- Claim C1: against a live compatible server at localhost:50051 whose
SayHello returns "Hello, " followed by the name, the single call with request
name "World" yields the message "Hello, World", which is printed before the
process exits with code 0 (and nothing on the error stream). -/
theorem run_helloServer_prints_greeting :
    run helloServer =
      some ⟨["Greeting: Hello, World"], none,
        some ⟨⟨"localhost", 50051⟩, ChannelState.closed⟩,
        [NetEvent.send ⟨"World"⟩, NetEvent.waitResponse]⟩ ∧
    mainEntry helloServer = some ⟨0, ["Greeting: Hello, World"], []⟩ := by
  constructor <;> rfl

/-- Claim C2: on every terminating execution of run, the channel created by
the with block exists and is closed at exit, whichever exit path was taken —
including the path on which the call raised. -/
theorem channel_closed_on_every_exit (net : ServerBehavior) (r : RunResult)
    (h : run net = some r) :
    Channel.state <$> r.channelAfter = some ChannelState.closed := by
  rw [run, insecure_channel_programTarget] at h
  rcases hn : GreeterStub.sayHello net ⟨⟨⟨"localhost", 50051⟩, .opened⟩⟩ programRequest none
    with ⟨res, tr⟩
  rcases res with _ | res
  · simp [hn] at h
  · rcases res with resp | e <;>
      · simp [hn] at h
        simp [← h, Channel.close, Channel.closeTr]

/-- Claim C2 witness: the theorem applied to the connection-refused
environment. -/
theorem channel_closed_on_every_exit_witness :
    Channel.state <$> (RunResult.mk [] (some RpcError.connectivityError)
        (some ⟨⟨"localhost", 50051⟩, ChannelState.closed⟩)
        [NetEvent.send ⟨"World"⟩, NetEvent.waitResponse]).channelAfter =
      some ChannelState.closed :=
  channel_closed_on_every_exit connRefusedServer _ (by rfl)

/-- Claim C3: when the endpoint refers to a port with no listening server the
call fails with ConnectivityError, the process exits non-zero with the reason
on the error stream, and no Response is printed to standard output. -/
theorem run_connRefused_exits_nonzero :
    run connRefusedServer =
      some ⟨[], some RpcError.connectivityError,
        some ⟨⟨"localhost", 50051⟩, ChannelState.closed⟩,
        [NetEvent.send ⟨"World"⟩, NetEvent.waitResponse]⟩ ∧
    mainEntry connRefusedServer = some ⟨1, [], ["ConnectivityError"]⟩ := by
  constructor <;> rfl

/-- Claim C4: on every terminating execution the exit code is 0 exactly when
the single call succeeded and the response was printed; on any unhandled
failure the exit code is non-zero and the failure reason is written to the
error stream (and nothing was printed to standard output). -/
theorem exit_code_zero_iff_success (net : ServerBehavior) (m : MainResult)
    (h : mainEntry net = some m) :
    (m.exitCode = 0 ↔ ∃ resp, net programRequest = some (CallResult.ok resp) ∧
        m.stdout = ["Greeting: " ++ resp.message]) ∧
    (m.exitCode ≠ 0 → ∃ e, net programRequest = some (CallResult.err e) ∧
        m.stderr = [RpcError.describe e] ∧ m.stdout = []) := by
  rw [mainEntry, run, insecure_channel_programTarget] at h
  rcases hn : net programRequest with _ | res
  · simp [GreeterStub.sayHello, hn] at h
  · rcases res with resp | e <;> simp [GreeterStub.sayHello, hn] at h <;> subst h <;> simp [hn]

/-- Claim C4 witness: the theorem applied to the live-server environment. -/
theorem exit_code_zero_iff_success_witness :
    ((MainResult.mk 0 ["Greeting: Hello, World"] []).exitCode = 0 ↔
      ∃ resp, helloServer programRequest = some (CallResult.ok resp) ∧
        (MainResult.mk 0 ["Greeting: Hello, World"] []).stdout =
          ["Greeting: " ++ resp.message]) ∧
    ((MainResult.mk 0 ["Greeting: Hello, World"] []).exitCode ≠ 0 →
      ∃ e, helloServer programRequest = some (CallResult.err e) ∧
        (MainResult.mk 0 ["Greeting: Hello, World"] []).stderr = [RpcError.describe e] ∧
        (MainResult.mk 0 ["Greeting: Hello, World"] []).stdout = []) :=
  exit_code_zero_iff_success helloServer ⟨0, ["Greeting: Hello, World"], []⟩ (by rfl)

/-- Claim C5: for every malformed Endpoint — empty host, or port outside the
valid range — Channel acquisition fails fast with a ConfigurationError and
performs no network activity. -/
theorem malformed_endpoint_fails_fast (e : Endpoint)
    (h : e.host = "" ∨ e.port < 1 ∨ 65535 < e.port) :
    openChannel e = (Except.error RpcError.configurationError, ([] : List NetEvent)) := by
  have hw : endpointWellFormed e = false := by
    rcases h with h | h | h
    · simp [endpointWellFormed, h]
    · have hp : ¬ (1 ≤ e.port) := by omega
      simp [endpointWellFormed, hp]
    · have hp : ¬ (e.port ≤ 65535) := by omega
      simp [endpointWellFormed, hp]
  simp [openChannel, hw]

/-- Claim C5 witness: the theorem applied to an endpoint with an empty host. -/
theorem malformed_endpoint_fails_fast_witness :
    openChannel ⟨"", 50051⟩ =
      (Except.error RpcError.configurationError, ([] : List NetEvent)) :=
  malformed_endpoint_fails_fast ⟨"", 50051⟩ (Or.inl rfl)

/-- Claim C6: for every channel, once it has been closed, every call through
an Invoker bound to it — whatever the environment, request, timeout, or prior
history recorded in the channel — returns immediately (it does not hang or
crash) with a ChannelClosedError failure, never a success, and performs no
network activity. -/
theorem call_after_close_fails (c : Channel) (net : ServerBehavior)
    (req : HelloRequest) (t : Option Nat) :
    GreeterStub.sayHello net ⟨Channel.close c⟩ req t =
      (some (CallResult.err RpcError.channelClosedError), []) := by
  rcases c with ⟨e, s⟩
  cases s <;> simp [GreeterStub.sayHello, Channel.close, Channel.closeTr]

/-- Claim C7: closing a channel a second time is a no-op — it raises no error,
releases the underlying connection zero further times, and leaves the channel
in exactly the state the first close produced. -/
theorem close_idempotent (c : Channel) :
    Channel.closeTr (Channel.close c) = (Channel.close c, []) ∧
    Channel.close (Channel.close c) = Channel.close c := by
  rcases c with ⟨e, s⟩
  cases s <;> simp [Channel.close, Channel.closeTr]

/-- Claim C8: for every environment in which a DeadlineExceededError is never
delivered from the wire (in this model it can only be produced locally by the
timeout machinery), a call with no timeout — which is the only kind this
program makes — never fails with DeadlineExceededError; and if no response
frame and no transport failure ever arrives, the call, and hence run, blocks
indefinitely. -/
theorem no_timeout_no_deadline (net : ServerBehavior)
    (hnet : ∀ q, net q ≠ some (CallResult.err RpcError.deadlineExceededError)) :
    (∀ stub req, (GreeterStub.sayHello net stub req none).1 ≠
        some (CallResult.err RpcError.deadlineExceededError)) ∧
    (net programRequest = none → run net = none) := by
  constructor
  · intro stub req
    rcases hs : stub.channel.state with _ | _ <;>
      rcases hn : net req with _ | res <;>
        simp [GreeterStub.sayHello, hs, hn]
    intro hres
    exact hnet req (hres ▸ hn)
  · intro h
    rw [run, insecure_channel_programTarget]
    simp [GreeterStub.sayHello, h]

/-- Claim C8 witness: the theorem applied to the silent environment. -/
theorem no_timeout_no_deadline_witness :
    (GreeterStub.sayHello silentServer ⟨⟨⟨"localhost", 50051⟩, ChannelState.opened⟩⟩
        ⟨"World"⟩ none).1 ≠ some (CallResult.err RpcError.deadlineExceededError) ∧
    run silentServer = none :=
  ⟨(no_timeout_no_deadline silentServer (fun q => by simp [silentServer])).1 _ _,
    (no_timeout_no_deadline silentServer (fun q => by simp [silentServer])).2 rfl⟩

/-- Claim C9: every invocation of the unary call on an open channel performs
exactly the network activity of one request transmission followed by one
response wait — no retransmission and nothing else — whatever the outcome;
and the call mutates no state: its result is a pure function of environment,
channel, request and timeout, and the channel value it was given is untouched. -/
theorem call_sends_exactly_once (net : ServerBehavior) (stub : GreeterStub)
    (req : HelloRequest) (t : Option Nat)
    (h : stub.channel.state = ChannelState.opened) :
    (GreeterStub.sayHello net stub req t).2 =
      [NetEvent.send req, NetEvent.waitResponse] := by
  rcases hn : net req with _ | res <;> rcases t with _ | t <;>
    simp [GreeterStub.sayHello, h, hn]

/-- Claim C9 witness: the theorem applied to the live-server environment on an
open channel. -/
theorem call_sends_exactly_once_witness :
    (GreeterStub.sayHello helloServer ⟨⟨⟨"localhost", 50051⟩, ChannelState.opened⟩⟩
        ⟨"World"⟩ none).2 = [NetEvent.send ⟨"World"⟩, NetEvent.waitResponse] :=
  call_sends_exactly_once helloServer ⟨⟨⟨"localhost", 50051⟩, ChannelState.opened⟩⟩
    ⟨"World"⟩ none rfl

/-- Claim C10: the endpoint and the request are compile-time constants — the
target string is "localhost:50051" and every terminating run opens its channel
to exactly that endpoint and sends exactly one SayHello request with name
"World"; on success the program prints exactly one line, "Greeting: " followed
by the response message. -/
theorem program_constants (net : ServerBehavior) :
    programTarget = "localhost:50051" ∧
    programRequest = ⟨"World"⟩ ∧
    (∀ r, run net = some r →
      r.trace = [NetEvent.send ⟨"World"⟩, NetEvent.waitResponse] ∧
      ∃ ch, r.channelAfter = some ch ∧ ch.endpoint = ⟨"localhost", 50051⟩) ∧
    (∀ resp, net programRequest = some (CallResult.ok resp) →
      run net = some ⟨["Greeting: " ++ resp.message], none,
        some ⟨⟨"localhost", 50051⟩, ChannelState.closed⟩,
        [NetEvent.send ⟨"World"⟩, NetEvent.waitResponse]⟩) := by
  refine ⟨rfl, rfl, ?_, ?_⟩
  · intro r h
    rcases hn : net programRequest with _ | res
    · rw [run_eq_none net hn] at h
      exact absurd h (by simp)
    · rcases res with resp | e
      · rw [run_eq_ok net resp hn] at h
        have hr := Option.some.inj h
        subst hr
        exact ⟨rfl, _, rfl, rfl⟩
      · rw [run_eq_err net e hn] at h
        have hr := Option.some.inj h
        subst hr
        exact ⟨rfl, _, rfl, rfl⟩
  · intro resp h
    exact run_eq_ok net resp h

/-- Claim C10 witness: the theorem applied to the live-server environment. -/
theorem program_constants_witness :
    programTarget = "localhost:50051" ∧
    run helloServer = some ⟨["Greeting: " ++ "Hello, World"], none,
      some ⟨⟨"localhost", 50051⟩, ChannelState.closed⟩,
      [NetEvent.send ⟨"World"⟩, NetEvent.waitResponse]⟩ :=
  ⟨(program_constants helloServer).1,
    (program_constants helloServer).2.2.2 ⟨"Hello, World"⟩ rfl⟩

end GreeterClient
